import Mathlib

/-!
Verification of the tokau token-space library.

The definitions below are a shallow embedding of the Rust sources:
  - `src/error.rs`  : `TokauError`
  - `src/token.rs`  : the `Token` trait and the concrete token kinds used by the
                      test layouts (`MaoToken`, `SingleToken`, `GingerToken`,
                      `TextTokens`)
  - `src/space.rs`  : the `Position` and `TokenSpace` traits, the `GingerSpace`
                      and `DynamicGingerSpace` layouts and their decoders
  - `src/ext.rs`    : the `TokenIter` stream operators (on `List Nat`)
  - `src/lib.rs`    : the older trait variant (`is`, `to`, `specials`, `ranges`),
                      embedded in namespace `Lib`
  - `tokau_derive/src/lib.rs` : the offset / RESERVED computation of the
                      `Space` derive macro (`spaceOffsets`, `reservedOf`) and
                      the `MySpace` layout it generates in `tests/space_macro.rs`

Machine integers (`u32`) are modelled as `Nat`; additions the Rust code performs
on `u32` at runtime are reduced modulo `2^32` (`u32Size`), checked subtraction
is `checkedSub`, and `Result` is `Except`.
-/

set_option maxRecDepth 100000

/-- Size of the `u32` domain: runtime `u32` additions wrap modulo this. -/
def u32Size : Nat := 4294967296

/-- Embedding of `u32::checked_sub`: `none` exactly when the subtraction would
underflow. -/
def checkedSub (a b : Nat) : Option Nat :=
  if b ≤ a then some (a - b) else none

/-- Embedding of `TokauError` (src/error.rs): the single error kind, carrying
the offending value and the exclusive upper bound. -/
inductive TokauError
  | OutOfRange (value : Nat) (max : Nat)
deriving DecidableEq, Repr

/-- Embedding of the `Token` trait (src/token.rs): a kind has a fixed `COUNT`
and converts an instance to its local value. -/
class Token (T : Type) where
  COUNT : Nat
  value : T → Nat

/-- Field accessor for `Token::COUNT` with the kind explicit. -/
abbrev COUNT (T : Type) [Token T] : Nat := Token.COUNT (T := T)

/-- Embedding of the `TryFrom<u32>` impls the token kinds provide. -/
class TryFromU32 (T : Type) where
  tryFrom : Nat → Except TokauError T

/-- Embedding of the `Position` trait (src/space.rs): a kind's base offset
inside a given space. -/
class Position (S : Type) (T : Type) where
  OFFSET : Nat

/-- Field accessor for `Position::OFFSET` with both types explicit. -/
abbrev OFFSET (S T : Type) [Position S T] : Nat := Position.OFFSET (S := S) (T := T)

/-- Embedding of `Position::at` (src/space.rs): `token.value() + Self::OFFSET`,
a `u32` addition. -/
def Position.at' (S : Type) {T : Type} [Token T] [Position S T] (token : T) : Nat :=
  (Token.value token + OFFSET S T) % u32Size

/-- Embedding of the `TokenSpace` trait constant `RESERVED` (src/space.rs). -/
class TokenSpace (S : Type) where
  RESERVED : Nat

/-- Field accessor for `TokenSpace::RESERVED` with the space explicit. -/
abbrev RESERVED (S : Type) [TokenSpace S] : Nat := TokenSpace.RESERVED (S := S)

/-- Embedding of `TokenSpace::try_as` (src/space.rs):
`value.checked_sub(start).and_then(|v| T::try_from(v).ok())`. -/
def TokenSpace.try_as (S T : Type) [Token T] [TryFromU32 T] [Position S T]
    (value : Nat) : Option T :=
  (checkedSub value (OFFSET S T)).bind fun v => (TryFromU32.tryFrom v).toOption

/-- Embedding of `TokenSpace::position_of` (src/space.rs): delegates to
`Position::at`. -/
def TokenSpace.position_of (S : Type) {T : Type} [Token T] [Position S T] (token : T) : Nat :=
  Position.at' S token

/-- Embedding of `TokenSpace::remainder` (src/space.rs):
`value.checked_sub(Self::RESERVED)`. -/
def TokenSpace.remainder (S : Type) [TokenSpace S] (value : Nat) : Option Nat :=
  checkedSub value (RESERVED S)

/-- Embedding of `TokenSpace::is_reserved` (src/space.rs). -/
def TokenSpace.is_reserved (S : Type) [TokenSpace S] (value : Nat) : Prop :=
  value < RESERVED S

/-- Embedding of `TokenSpace::after_reserved` (src/space.rs):
`value + Self::RESERVED`, a `u32` addition. -/
def TokenSpace.after_reserved (S : Type) [TokenSpace S] (value : Nat) : Nat :=
  (value + RESERVED S) % u32Size

/-! Concrete token kinds from src/token.rs (test module). -/

/-- Embedding of `MaoToken` (src/token.rs). -/
inductive MaoToken
  | ProgramStart | ProgramEnd | Fn | Struct
deriving DecidableEq, Repr

/-- Embedding of `MaoToken::value` (`*self as u32`). -/
def MaoToken.value : MaoToken → Nat
  | .ProgramStart => 0
  | .ProgramEnd => 1
  | .Fn => 2
  | .Struct => 3

instance : Token MaoToken := ⟨4, MaoToken.value⟩

/-- Embedding of `TryFrom<u32> for MaoToken` (src/token.rs). -/
def MaoToken.tryFrom : Nat → Except TokauError MaoToken
  | 0 => .ok .ProgramStart
  | 1 => .ok .ProgramEnd
  | 2 => .ok .Fn
  | 3 => .ok .Struct
  | v => .error (.OutOfRange v (COUNT MaoToken))

instance : TryFromU32 MaoToken := ⟨MaoToken.tryFrom⟩

/-- Embedding of `SingleToken` (src/token.rs). -/
inductive SingleToken
  | Single
deriving DecidableEq, Repr

/-- Embedding of `SingleToken::value`. -/
def SingleToken.value : SingleToken → Nat
  | .Single => 0

instance : Token SingleToken := ⟨1, SingleToken.value⟩

/-- Embedding of `TryFrom<u32> for SingleToken` (src/token.rs). -/
def SingleToken.tryFrom : Nat → Except TokauError SingleToken
  | 0 => .ok .Single
  | v => .error (.OutOfRange v (COUNT SingleToken))

instance : TryFromU32 SingleToken := ⟨SingleToken.tryFrom⟩

/-- Embedding of `GingerToken` (src/token.rs). -/
inductive GingerToken
  | TextStart | TextEnd | AudioStart | AudioEnd | AwaitAudio
deriving DecidableEq, Repr

/-- Embedding of `GingerToken::value` (`*self as u32`). -/
def GingerToken.value : GingerToken → Nat
  | .TextStart => 0
  | .TextEnd => 1
  | .AudioStart => 2
  | .AudioEnd => 3
  | .AwaitAudio => 4

instance : Token GingerToken := ⟨5, GingerToken.value⟩

/-- Embedding of `TryFrom<u32> for GingerToken` (src/token.rs). -/
def GingerToken.tryFrom : Nat → Except TokauError GingerToken
  | 0 => .ok .TextStart
  | 1 => .ok .TextEnd
  | 2 => .ok .AudioStart
  | 3 => .ok .AudioEnd
  | 4 => .ok .AwaitAudio
  | v => .error (.OutOfRange v (COUNT GingerToken))

instance : TryFromU32 GingerToken := ⟨GingerToken.tryFrom⟩

/-- Embedding of the range kind `TextTokens(pub u32)` (src/token.rs). -/
structure TextTokens where
  val : Nat
deriving DecidableEq, Repr

/-- Embedding of `TextTokens::value` (`self.0`). -/
def TextTokens.value (t : TextTokens) : Nat := t.val

instance : Token TextTokens := ⟨1000, TextTokens.value⟩

/-- Embedding of `TryFrom<u32> for TextTokens` (src/token.rs): accepts local
offsets strictly below `COUNT`. -/
def TextTokens.tryFrom (offset : Nat) : Except TokauError TextTokens :=
  if offset < COUNT TextTokens then .ok ⟨offset⟩
  else .error (.OutOfRange offset (COUNT TextTokens))

instance : TryFromU32 TextTokens := ⟨TextTokens.tryFrom⟩

/-! The `GingerSpace` layout from src/space.rs (test module). -/

/-- Embedding of the `GingerSpace` enum (src/space.rs). -/
inductive GingerSpace
  | Ginger (t : GingerToken)
  | Mao (t : MaoToken)
  | Single (t : SingleToken)
  | Text (t : TextTokens)
deriving DecidableEq, Repr

instance : Position GingerSpace GingerToken := ⟨0⟩
instance : Position GingerSpace MaoToken := ⟨COUNT GingerToken⟩
instance : Position GingerSpace SingleToken := ⟨COUNT GingerToken + COUNT MaoToken⟩
instance : Position GingerSpace TextTokens :=
  ⟨COUNT GingerToken + COUNT MaoToken + COUNT SingleToken⟩

instance : TokenSpace GingerSpace :=
  ⟨COUNT GingerToken + COUNT MaoToken + COUNT SingleToken + COUNT TextTokens⟩

/-- Embedding of `GingerSpace::value` (src/space.rs): each case maps back via
`position_of`. -/
def GingerSpace.value : GingerSpace → Nat
  | .Ginger token => TokenSpace.position_of GingerSpace token
  | .Mao token => TokenSpace.position_of GingerSpace token
  | .Single token => TokenSpace.position_of GingerSpace token
  | .Text token => TokenSpace.position_of GingerSpace token

/-- Embedding of the match arms of `TryFrom<u32> for GingerSpace`
(src/space.rs): ranges `0..=4`, `5..=8`, `9`, `10..=1009` tried in order. -/
def GingerSpace.tryFromAux (id : Nat) : Option GingerSpace :=
  if id ≤ 4 then (GingerToken.tryFrom id).toOption.map GingerSpace.Ginger
  else if id ≤ 8 then (MaoToken.tryFrom (id - 5)).toOption.map GingerSpace.Mao
  else if id = 9 then (SingleToken.tryFrom (id - 9)).toOption.map GingerSpace.Single
  else if id ≤ 1009 then (TextTokens.tryFrom (id - 10)).toOption.map GingerSpace.Text
  else none

/-- Embedding of `TryFrom<u32> for GingerSpace` (src/space.rs): the match
result is `.ok_or(OutOfRange { value: id, max: RESERVED })`. -/
def GingerSpace.tryFrom (id : Nat) : Except TokauError GingerSpace :=
  match GingerSpace.tryFromAux id with
  | some s => .ok s
  | none => .error (.OutOfRange id (RESERVED GingerSpace))

deriving instance DecidableEq for Except

/-- C4: for the `GingerSpace` layout (`RESERVED = 1010`, no dynamic tail),
decoding `R - 1 = 1009` succeeds and decoding `R = 1010` fails with exactly
`OutOfRange { value: 1010, max: 1010 }`. -/
theorem c4_boundary_behavior :
    RESERVED GingerSpace = 1010 ∧
    GingerSpace.tryFrom 1009 = .ok (.Text ⟨999⟩) ∧
    GingerSpace.tryFrom 1010 = .error (.OutOfRange 1010 1010) := by
  refine ⟨rfl, by decide, by decide⟩

/-! The `DynamicGingerSpace` layout from src/space.rs (test module). -/

/-- Embedding of the `DynamicGingerSpace` enum (src/space.rs): the four static
kinds plus the dynamic-tail case. -/
inductive DynamicGingerSpace
  | Ginger (t : GingerToken)
  | Mao (t : MaoToken)
  | Single (t : SingleToken)
  | Text (t : TextTokens)
  | Dynamic (offset : Nat)
deriving DecidableEq, Repr

instance : Position DynamicGingerSpace GingerToken := ⟨0⟩
instance : Position DynamicGingerSpace MaoToken := ⟨COUNT GingerToken⟩
instance : Position DynamicGingerSpace SingleToken := ⟨COUNT GingerToken + COUNT MaoToken⟩
instance : Position DynamicGingerSpace TextTokens :=
  ⟨COUNT GingerToken + COUNT MaoToken + COUNT SingleToken⟩

instance : TokenSpace DynamicGingerSpace :=
  ⟨COUNT GingerToken + COUNT MaoToken + COUNT SingleToken + COUNT TextTokens⟩

/-- Embedding of `DynamicGingerSpace::value` (src/space.rs); the `Dynamic` arm
is `Self::RESERVED + offset`, a `u32` addition. -/
def DynamicGingerSpace.value : DynamicGingerSpace → Nat
  | .Ginger token => TokenSpace.position_of DynamicGingerSpace token
  | .Mao token => TokenSpace.position_of DynamicGingerSpace token
  | .Single token => TokenSpace.position_of DynamicGingerSpace token
  | .Text token => TokenSpace.position_of DynamicGingerSpace token
  | .Dynamic offset => (RESERVED DynamicGingerSpace + offset) % u32Size

/-- Embedding of `TryFrom<u32> for DynamicGingerSpace` (src/space.rs): the
`if let` chain of `try_as` tests followed by `remainder`. The `unreachable!`
at the end is modelled as `none`; every normal return is `some`. -/
def DynamicGingerSpace.tryFrom (id : Nat) : Option (Except TokauError DynamicGingerSpace) :=
  match TokenSpace.try_as DynamicGingerSpace GingerToken id with
  | some token => some (.ok (.Ginger token))
  | none =>
  match TokenSpace.try_as DynamicGingerSpace MaoToken id with
  | some token => some (.ok (.Mao token))
  | none =>
  match TokenSpace.try_as DynamicGingerSpace SingleToken id with
  | some token => some (.ok (.Single token))
  | none =>
  match TokenSpace.try_as DynamicGingerSpace TextTokens id with
  | some token => some (.ok (.Text token))
  | none =>
  match TokenSpace.remainder DynamicGingerSpace id with
  | some offset => some (.ok (.Dynamic offset))
  | none => none

/-- Selects the static (non-`Dynamic`) cases of `DynamicGingerSpace`. -/
def DynamicGingerSpace.isStatic : DynamicGingerSpace → Bool
  | .Dynamic _ => false
  | _ => true

/-! Helper lemmas about the concrete layouts. -/

lemma dgs_reserved : RESERVED DynamicGingerSpace = 1010 := rfl

lemma gs_reserved : RESERVED GingerSpace = 1010 := rfl

lemma dgs_offset_ginger : OFFSET DynamicGingerSpace GingerToken = 0 := rfl

lemma dgs_offset_mao : OFFSET DynamicGingerSpace MaoToken = 5 := rfl

lemma dgs_offset_single : OFFSET DynamicGingerSpace SingleToken = 9 := rfl

lemma dgs_offset_text : OFFSET DynamicGingerSpace TextTokens = 10 := rfl

lemma GingerToken.ginger_tryFrom_none (v : Nat) (h : COUNT GingerToken ≤ v) :
    (GingerToken.tryFrom v).toOption = none := by
  obtain ⟨n, rfl⟩ := Nat.exists_eq_add_of_le' h
  rfl

lemma MaoToken.mao_tryFrom_none (v : Nat) (h : COUNT MaoToken ≤ v) :
    (MaoToken.tryFrom v).toOption = none := by
  obtain ⟨n, rfl⟩ := Nat.exists_eq_add_of_le' h
  rfl

lemma SingleToken.single_tryFrom_none (v : Nat) (h : COUNT SingleToken ≤ v) :
    (SingleToken.tryFrom v).toOption = none := by
  obtain ⟨n, rfl⟩ := Nat.exists_eq_add_of_le' h
  rfl

lemma TextTokens.text_tryFrom_none (v : Nat) (h : COUNT TextTokens ≤ v) :
    (TextTokens.tryFrom v).toOption = none := by
  rw [TextTokens.tryFrom, if_neg (by exact Nat.not_lt.mpr h)]
  rfl

lemma try_as_of_le (S T : Type) [Token T] [TryFromU32 T] [Position S T]
    (id : Nat) (h : OFFSET S T ≤ id) :
    TokenSpace.try_as S T id = (TryFromU32.tryFrom (id - OFFSET S T)).toOption := by
  rw [TokenSpace.try_as, checkedSub, if_pos h]
  rfl

/-- For ids at or beyond `RESERVED`, the dynamic decoder takes the `remainder`
arm: every static `try_as` fails and the result is the `Dynamic` case. -/
lemma dyn_tryFrom_ge (id : Nat) (h : 1010 ≤ id) :
    DynamicGingerSpace.tryFrom id = some (.ok (.Dynamic (id - 1010))) := by
  have h1 : TokenSpace.try_as DynamicGingerSpace GingerToken id = none := by
    rw [try_as_of_le DynamicGingerSpace GingerToken id (by show 0 ≤ id; omega)]
    exact GingerToken.ginger_tryFrom_none _ (by show 5 ≤ id - 0; omega)
  have h2 : TokenSpace.try_as DynamicGingerSpace MaoToken id = none := by
    rw [try_as_of_le DynamicGingerSpace MaoToken id (by show 5 ≤ id; omega)]
    exact MaoToken.mao_tryFrom_none _ (by show 4 ≤ id - 5; omega)
  have h3 : TokenSpace.try_as DynamicGingerSpace SingleToken id = none := by
    rw [try_as_of_le DynamicGingerSpace SingleToken id (by show 9 ≤ id; omega)]
    exact SingleToken.single_tryFrom_none _ (by show 1 ≤ id - 9; omega)
  have h4 : TokenSpace.try_as DynamicGingerSpace TextTokens id = none := by
    rw [try_as_of_le DynamicGingerSpace TextTokens id (by show 10 ≤ id; omega)]
    exact TextTokens.text_tryFrom_none _ (by show 1000 ≤ id - 10; omega)
  have h5 : TokenSpace.remainder DynamicGingerSpace id = some (id - 1010) := by
    show checkedSub id 1010 = some (id - 1010)
    rw [checkedSub, if_pos h]
  rw [DynamicGingerSpace.tryFrom, h1, h2, h3, h4, h5]

/-- For ids at or beyond `RESERVED`, the static `GingerSpace` decoder fails
with `OutOfRange`. -/
lemma gs_tryFrom_ge (id : Nat) (h : 1010 ≤ id) :
    GingerSpace.tryFrom id = .error (.OutOfRange id 1010) := by
  rw [GingerSpace.tryFrom, GingerSpace.tryFromAux, if_neg (by omega), if_neg (by omega),
    if_neg (by omega), if_neg (by omega)]
  rfl

/-- Executable check used to settle the static range of `DynamicGingerSpace`
by evaluation: decoding yields a static case whose `value` is the input. -/
def dynDecodeOk (id : Nat) : Bool :=
  match DynamicGingerSpace.tryFrom id with
  | some (.ok s) => DynamicGingerSpace.isStatic s && (DynamicGingerSpace.value s == id)
  | _ => false

lemma dyn_lt_check : ∀ id < 1010, dynDecodeOk id = true := by decide

lemma dyn_lt_spec (id : Nat) (h : id < 1010) :
    ∃ s, DynamicGingerSpace.tryFrom id = some (.ok s) ∧
      DynamicGingerSpace.isStatic s = true ∧ DynamicGingerSpace.value s = id := by
  have hd := dyn_lt_check id h
  rw [dynDecodeOk] at hd
  rcases he : DynamicGingerSpace.tryFrom id with _ | e
  · rw [he] at hd; simp at hd
  · rcases e with e | s
    · rw [he] at hd; simp at hd
    · rw [he] at hd
      simp only [Bool.and_eq_true, beq_iff_eq] at hd
      exact ⟨s, rfl, hd.1, hd.2⟩

/-- Executable check used to settle the static range of `GingerSpace` by
evaluation: a successful decode has `value` equal to the input. -/
def gsDecodeOk (id : Nat) : Bool :=
  match GingerSpace.tryFrom id with
  | .ok s => GingerSpace.value s == id
  | .error _ => false

lemma gs_lt_check : ∀ id < 1010, gsDecodeOk id = true := by decide

lemma gs_lt_spec (id : Nat) (h : id < 1010) :
    ∃ s, GingerSpace.tryFrom id = .ok s ∧ GingerSpace.value s = id := by
  have hd := gs_lt_check id h
  rw [gsDecodeOk] at hd
  rcases he : GingerSpace.tryFrom id with e | s
  · rw [he] at hd; simp at hd
  · rw [he] at hd
    simp only [beq_iff_eq] at hd
    exact ⟨s, rfl, hd⟩

/-- C1: static round-trip for `GingerSpace`: for each composed kind and each
valid instance (local value below the kind's `COUNT`), decoding the encoded
position yields the tagged case wrapping the same instance. -/
theorem c1_static_roundtrip :
    (∀ t : GingerToken,
      GingerSpace.tryFrom (TokenSpace.position_of GingerSpace t) = .ok (.Ginger t)) ∧
    (∀ t : MaoToken,
      GingerSpace.tryFrom (TokenSpace.position_of GingerSpace t) = .ok (.Mao t)) ∧
    (∀ t : SingleToken,
      GingerSpace.tryFrom (TokenSpace.position_of GingerSpace t) = .ok (.Single t)) ∧
    (∀ v : Nat, v < COUNT TextTokens →
      GingerSpace.tryFrom (TokenSpace.position_of GingerSpace (TextTokens.mk v)) =
        .ok (.Text (TextTokens.mk v))) := by
  refine ⟨?_, ?_, ?_, ?_⟩
  · intro t; cases t <;> decide
  · intro t; cases t <;> decide
  · intro t; cases t <;> decide
  · decide

/-- Witness for C1 at concrete inputs of each kind. -/
theorem c1_static_roundtrip_witness :
    GingerSpace.tryFrom (TokenSpace.position_of GingerSpace MaoToken.Fn) = .ok (.Mao .Fn) ∧
    (42 < COUNT TextTokens ∧
      GingerSpace.tryFrom (TokenSpace.position_of GingerSpace (TextTokens.mk 42)) =
        .ok (.Text (TextTokens.mk 42))) :=
  ⟨c1_static_roundtrip.2.1 MaoToken.Fn,
   by decide, c1_static_roundtrip.2.2.2 42 (by decide)⟩

/-- Counts how many of the four composed kinds' membership tests accept `id`
in `GingerSpace`. -/
def gingerMatchCount (id : Nat) : Nat :=
  (if (TokenSpace.try_as GingerSpace GingerToken id).isSome then 1 else 0) +
  (if (TokenSpace.try_as GingerSpace MaoToken id).isSome then 1 else 0) +
  (if (TokenSpace.try_as GingerSpace SingleToken id).isSome then 1 else 0) +
  (if (TokenSpace.try_as GingerSpace TextTokens id).isSome then 1 else 0)

/-- C2: coverage for `GingerSpace` (`RESERVED = 1010`): every id below
`RESERVED` is accepted by exactly one of the four composed kinds. -/
theorem c2_coverage (id : Nat) (h : id < RESERVED GingerSpace) :
    gingerMatchCount id = 1 := by
  have hb : ∀ i < 1010, gingerMatchCount i = 1 := by decide
  exact hb id (by rw [gs_reserved] at h; omega)

/-- Witness for C2 at id 7 (a `MaoToken` position). -/
theorem c2_coverage_witness : 7 < RESERVED GingerSpace ∧ gingerMatchCount 7 = 1 :=
  ⟨by decide, c2_coverage 7 (by decide)⟩

/-- C3: with a dynamic tail, decode cannot fail: for every u32 id the dynamic
decoder returns a value (the `unreachable!` fall-through, modelled as `none`,
is never reached), a static case below `RESERVED` and `Dynamic (id - RESERVED)`
from `RESERVED` on. -/
theorem c3_dynamic_total (id : Nat) (h : id < u32Size) :
    DynamicGingerSpace.tryFrom id ≠ none ∧
    (id < RESERVED DynamicGingerSpace →
      ∃ s, DynamicGingerSpace.tryFrom id = some (.ok s) ∧
        DynamicGingerSpace.isStatic s = true) ∧
    (RESERVED DynamicGingerSpace ≤ id →
      DynamicGingerSpace.tryFrom id =
        some (.ok (.Dynamic (id - RESERVED DynamicGingerSpace)))) := by
  rw [dgs_reserved]
  by_cases hlt : id < 1010
  · obtain ⟨s, h1, h2, _⟩ := dyn_lt_spec id hlt
    exact ⟨by rw [h1]; simp, fun _ => ⟨s, h1, h2⟩, fun hge => absurd hge (by omega)⟩
  · have h1 := dyn_tryFrom_ge id (by omega)
    exact ⟨by rw [h1]; simp, fun hlt2 => absurd hlt2 (by omega), fun _ => h1⟩

/-- Witness for C3 at id 2000 (dynamic region). -/
theorem c3_dynamic_total_witness :
    2000 < u32Size ∧ RESERVED DynamicGingerSpace ≤ 2000 ∧
    DynamicGingerSpace.tryFrom 2000 = some (.ok (.Dynamic 990)) :=
  ⟨by decide, by decide,
    (c3_dynamic_total 2000 (by decide)).2.2 (by decide)⟩

/-- C5: checked underflow is reported as absence: whenever an id lies below a
kind's offset in a space, `try_as` yields `None` (no wrap-around, no error). -/
theorem c5_checked_underflow (S T : Type) [Token T] [TryFromU32 T] [Position S T]
    (id : Nat) (h : id < OFFSET S T) :
    TokenSpace.try_as S T id = none := by
  rw [TokenSpace.try_as, checkedSub, if_neg (by omega)]
  rfl

/-- Witness for C5: id 3 is below `MaoToken`'s offset 5 in `GingerSpace`. -/
theorem c5_checked_underflow_witness :
    3 < OFFSET GingerSpace MaoToken ∧
    TokenSpace.try_as GingerSpace MaoToken 3 = none :=
  ⟨by decide, c5_checked_underflow GingerSpace MaoToken 3 (by decide)⟩

/-- C10: decode is a right inverse of encode on successfully decoded ids: for
every u32 id, a successful decode in `GingerSpace` or `DynamicGingerSpace`
yields a value whose `value()` is the original id. -/
theorem c10_decode_right_inverse (id : Nat) (h : id < u32Size) :
    (∀ s, GingerSpace.tryFrom id = .ok s → GingerSpace.value s = id) ∧
    (∀ s, DynamicGingerSpace.tryFrom id = some (.ok s) →
      DynamicGingerSpace.value s = id) := by
  constructor
  · intro s hs
    by_cases hlt : id < 1010
    · obtain ⟨s', h1, h2⟩ := gs_lt_spec id hlt
      rw [h1] at hs
      injection hs with hs'
      rw [← hs']; exact h2
    · rw [gs_tryFrom_ge id (by omega)] at hs
      exact absurd hs (by simp)
  · intro s hs
    by_cases hlt : id < 1010
    · obtain ⟨s', h1, _, h3⟩ := dyn_lt_spec id hlt
      rw [h1] at hs
      injection hs with hs'
      injection hs' with hs''
      rw [← hs'']; exact h3
    · rw [dyn_tryFrom_ge id (by omega)] at hs
      injection hs with hs'
      injection hs' with hs''
      rw [← hs'']
      show (RESERVED DynamicGingerSpace + (id - 1010)) % u32Size = id
      rw [dgs_reserved, u32Size]
      rw [Nat.mod_eq_of_lt (by rw [u32Size] at h; omega)]
      omega

/-- Witness for C10 at ids 7 (static) and 1510 (dynamic). -/
theorem c10_decode_right_inverse_witness :
    7 < u32Size ∧ GingerSpace.tryFrom 7 = .ok (.Mao .Fn) ∧
    GingerSpace.value (.Mao .Fn) = 7 ∧
    1510 < u32Size ∧ DynamicGingerSpace.tryFrom 1510 = some (.ok (.Dynamic 500)) ∧
    DynamicGingerSpace.value (.Dynamic 500) = 1510 :=
  ⟨by decide, by decide,
   (c10_decode_right_inverse 7 (by decide)).1 (.Mao .Fn) (by decide),
   by decide, by decide,
   (c10_decode_right_inverse 1510 (by decide)).2 (.Dynamic 500) (by decide)⟩

/-! Stream operators from src/ext.rs, embedded on finite sequences
(`List Nat`). -/

/-- Embedding of `TokenIter::remainders` (src/ext.rs):
`self.filter_map(|id| S::remainder(id))`. -/
def TokenIter.remainders (S : Type) [TokenSpace S] (l : List Nat) : List Nat :=
  l.filterMap (TokenSpace.remainder S)

/-- Embedding of `TokenIter::decode` (src/ext.rs): `self.map(|id| S::try_from(id))`,
here for the `GingerSpace` decoder. -/
def TokenIter.decodeGinger (l : List Nat) : List (Except TokauError GingerSpace) :=
  l.map GingerSpace.tryFrom

/-- Embedding of `TokenIter::after_reserved` (src/ext.rs):
`self.map(|id| S::after_reserved(id))`. -/
def TokenIter.after_reserved (S : Type) [TokenSpace S] (l : List Nat) : List Nat :=
  l.map (TokenSpace.after_reserved S)

/-- Single-value half of the amended C7 round trip, for any space. -/
lemma remainder_after_reserved (S : Type) [TokenSpace S] (offset : Nat)
    (h : offset + RESERVED S < u32Size) :
    TokenSpace.remainder S (TokenSpace.after_reserved S offset) = some offset := by
  rw [TokenSpace.remainder, TokenSpace.after_reserved, Nat.mod_eq_of_lt h,
    checkedSub, if_pos (Nat.le_add_left _ _)]
  show some (offset + RESERVED S - RESERVED S) = some offset
  rw [Nat.add_sub_cancel]

/-- C7 counterexample: the dynamic round trip fails at `offset = u32::MAX`
(`4294967295`) because `after_reserved` wraps: the shifted value is `1009`,
which is inside the reserved range, so `remainder` returns `none`, not
`Some(4294967295)`. -/
theorem c7_dynamic_roundtrip_counterexample :
    TokenSpace.after_reserved DynamicGingerSpace 4294967295 = 1009 ∧
    TokenSpace.remainder DynamicGingerSpace
      (TokenSpace.after_reserved DynamicGingerSpace 4294967295) ≠ some 4294967295 := by
  refine ⟨by decide, by decide⟩

/-- C7 (amended): for every offset whose shift does not overflow u32
(`offset + RESERVED < 2^32`), `remainder (after_reserved offset) = Some offset`,
and the stream chain `after_reserved` then `remainders` is the identity on
sequences of such offsets. -/
theorem c7_dynamic_roundtrip_amended :
    (∀ (S : Type) [TokenSpace S] (offset : Nat), offset + RESERVED S < u32Size →
      TokenSpace.remainder S (TokenSpace.after_reserved S offset) = some offset) ∧
    (∀ (S : Type) [TokenSpace S] (l : List Nat), (∀ x ∈ l, x + RESERVED S < u32Size) →
      TokenIter.remainders S (TokenIter.after_reserved S l) = l) := by
  refine ⟨fun S _ offset h => remainder_after_reserved S offset h, ?_⟩
  intro S _ l hl
  induction l with
  | nil => rfl
  | cons x xs ih =>
    rw [TokenIter.after_reserved, List.map_cons, TokenIter.remainders, List.filterMap_cons,
      remainder_after_reserved S x (hl x (by simp))]
    rw [TokenIter.after_reserved, TokenIter.remainders] at ih
    rw [ih fun y hy => hl y (by simp [hy])]

/-- Witness for the amended C7 at offset 42 and the list `[0, 1, 500]` in
`DynamicGingerSpace`. -/
theorem c7_dynamic_roundtrip_amended_witness :
    (42 + RESERVED DynamicGingerSpace < u32Size ∧
      TokenSpace.remainder DynamicGingerSpace
        (TokenSpace.after_reserved DynamicGingerSpace 42) = some 42) ∧
    ((∀ x ∈ [0, 1, 500], x + RESERVED DynamicGingerSpace < u32Size) ∧
      TokenIter.remainders DynamicGingerSpace
        (TokenIter.after_reserved DynamicGingerSpace [0, 1, 500]) = [0, 1, 500]) :=
  ⟨⟨by decide, c7_dynamic_roundtrip_amended.1 DynamicGingerSpace 42 (by decide)⟩,
   ⟨by decide, c7_dynamic_roundtrip_amended.2 DynamicGingerSpace [0, 1, 500] (by decide)⟩⟩

/-- C8: the `remainders` operator yields exactly `id - RESERVED` for the
elements with `id ≥ RESERVED`, in input order, and drops the rest. -/
theorem c8_remainders_spec (S : Type) [TokenSpace S] (l : List Nat) :
    TokenIter.remainders S l =
      (l.filter fun id => decide (RESERVED S ≤ id)).map fun id => id - RESERVED S := by
  have remainder_eq : ∀ x : Nat, TokenSpace.remainder S x =
      if RESERVED S ≤ x then some (x - RESERVED S) else none := fun _ => rfl
  induction l with
  | nil => rfl
  | cons x xs ih =>
    rw [TokenIter.remainders] at ih ⊢
    by_cases hx : RESERVED S ≤ x
    · simp [List.filterMap_cons, List.filter_cons, remainder_eq, hx, ih]
    · simp [List.filterMap_cons, List.filter_cons, remainder_eq, hx, ih]

/-! Offset assignment of the `Space` derive macro (tokau_derive/src/lib.rs)
and the `MySpace` layout it generates in tests/space_macro.rs. -/

/-- Embedding of the derive macro's `Position` generation loop
(tokau_derive/src/lib.rs): `offset_expr` starts at `0` and, after emitting a
kind's `OFFSET`, grows by that kind's `COUNT`. -/
def spaceOffsetsAux (acc : Nat) : List Nat → List Nat
  | [] => []
  | c :: cs => acc :: spaceOffsetsAux (acc + c) cs

/-- Offsets the derive macro assigns to a layout with the given kind counts. -/
def spaceOffsets (counts : List Nat) : List Nat :=
  spaceOffsetsAux 0 counts

/-- Embedding of the derive macro's `RESERVED` computation
(tokau_derive/src/lib.rs): `0` for an empty layout, otherwise the chain
`c0 + c1 + … + cn` of the composed kinds' counts. -/
def reservedOf : List Nat → Nat
  | [] => 0
  | c :: cs => cs.foldl (· + ·) c

/-- Embedding of `ControlToken` (tests/space_macro.rs, `derive(Name)`):
`COUNT` is the variant count and values are declaration indices. -/
inductive ControlToken
  | Start | Stop | Pause
deriving DecidableEq, Repr

/-- Embedding of `ControlToken::value` (`*self as u32`). -/
def ControlToken.value : ControlToken → Nat
  | .Start => 0
  | .Stop => 1
  | .Pause => 2

instance : Token ControlToken := ⟨3, ControlToken.value⟩

/-- Embedding of `TryFrom<u32> for ControlToken` as generated by
`derive(Name)` (tokau_derive/src/lib.rs). -/
def ControlToken.tryFrom : Nat → Except TokauError ControlToken
  | 0 => .ok .Start
  | 1 => .ok .Stop
  | 2 => .ok .Pause
  | v => .error (.OutOfRange v (COUNT ControlToken))

instance : TryFromU32 ControlToken := ⟨ControlToken.tryFrom⟩

/-- Embedding of the `MySpace` enum (tests/space_macro.rs):
`Control(ControlToken)`, `Text(TextTokens)` and the `#[dynamic]` tail. -/
inductive MySpace
  | Control (t : ControlToken)
  | Text (t : TextTokens)
  | Vocab (offset : Nat)
deriving DecidableEq, Repr

instance : Position MySpace ControlToken := ⟨0⟩
instance : Position MySpace TextTokens := ⟨0 + COUNT ControlToken⟩

instance : TokenSpace MySpace := ⟨COUNT ControlToken + COUNT TextTokens⟩

lemma spaceOffsetsAux_get (cs : List Nat) :
    ∀ (acc i : Nat), i < cs.length →
      (spaceOffsetsAux acc cs)[i]? = some (acc + (cs.take i).sum) := by
  induction cs with
  | nil => intro acc i h; simp at h
  | cons c cs ih =>
    intro acc i h
    cases i with
    | zero => simp [spaceOffsetsAux]
    | succ i =>
      rw [spaceOffsetsAux, List.getElem?_cons_succ, List.take_succ_cons, List.sum_cons,
        ih (acc + c) i (by simpa using h)]
      congr 1
      omega

lemma reservedOf_eq_sum (cs : List Nat) : reservedOf cs = cs.sum := by
  cases cs with
  | nil => rfl
  | cons c cs =>
    rw [reservedOf, List.sum_cons]
    induction cs generalizing c with
    | nil => simp
    | cons d ds ih => rw [List.foldl_cons, List.sum_cons, ih (c + d)]; omega

/-- C6: offsets are a left-to-right prefix sum: in a derived layout each kind's
`OFFSET` is the sum of the preceding kinds' `COUNT`s and `RESERVED` is the total
sum; concretely for `MySpace` (`ControlToken` then `TextTokens`), the offsets
are 0 and 3 and `RESERVED` is 1003. -/
theorem c6_offsets_prefix_sum :
    (∀ (cs : List Nat) (i : Nat), i < cs.length →
      (spaceOffsets cs)[i]? = some ((cs.take i).sum)) ∧
    (∀ cs : List Nat, reservedOf cs = cs.sum) ∧
    spaceOffsets [COUNT ControlToken, COUNT TextTokens] =
      [OFFSET MySpace ControlToken, OFFSET MySpace TextTokens] ∧
    reservedOf [COUNT ControlToken, COUNT TextTokens] = RESERVED MySpace ∧
    OFFSET MySpace ControlToken = 0 ∧
    OFFSET MySpace TextTokens = 3 ∧
    RESERVED MySpace = 1003 := by
  refine ⟨?_, reservedOf_eq_sum, by decide, by decide, rfl, rfl, rfl⟩
  intro cs i h
  rw [spaceOffsets, spaceOffsetsAux_get cs 0 i h, Nat.zero_add]

/-- Witness for C6's generic part at counts `[3, 1000]`, index 1. -/
theorem c6_offsets_prefix_sum_witness :
    1 < ([3, 1000] : List Nat).length ∧ (spaceOffsets [3, 1000])[1]? = some 3 :=
  ⟨by decide, c6_offsets_prefix_sum.1 [3, 1000] 1 (by decide)⟩

/-! The older trait variant from src/lib.rs: comparison-guarded lookups `is`
and `to`, and the `TokenFilter` stream operators `specials` and `ranges`. -/

namespace Lib

/-- Embedding of the unit struct `GingerSpace {}` from the src/lib.rs test
module; its `Position` impls use the same offsets as src/space.rs. -/
structure GingerSpace

instance : Position GingerSpace GingerToken := ⟨0⟩

instance : Position GingerSpace MaoToken := ⟨COUNT GingerToken⟩

instance : Position GingerSpace SingleToken := ⟨COUNT GingerToken + COUNT MaoToken⟩

instance : Position GingerSpace TextTokens :=
  ⟨COUNT GingerToken + COUNT MaoToken + COUNT SingleToken⟩

instance : TokenSpace GingerSpace :=
  ⟨COUNT GingerToken + COUNT MaoToken + COUNT SingleToken + COUNT TextTokens⟩

/-- Embedding of `TokenSpace::is` (src/lib.rs): comparison-guarded lookup for
named kinds, `T::try_from(value - start).ok()` when
`start <= value < start + COUNT`. -/
def is (S T : Type) [Token T] [TryFromU32 T] [Position S T] (value : Nat) : Option T :=
  if OFFSET S T ≤ value ∧ value < OFFSET S T + COUNT T then
    (TryFromU32.tryFrom (value - OFFSET S T)).toOption
  else none

/-- Embedding of `TokenSpace::to` (src/lib.rs): comparison-guarded membership
for range kinds, returning the offset within the range. -/
def to' (S T : Type) [Token T] [Position S T] (value : Nat) : Option Nat :=
  if OFFSET S T ≤ value ∧ value < OFFSET S T + COUNT T then some (value - OFFSET S T)
  else none

/-- Embedding of `TokenFilter::specials` (src/lib.rs):
`self.filter_map(|id| S::is::<T>(id))`. -/
def specials (S T : Type) [Token T] [TryFromU32 T] [Position S T] (l : List Nat) : List T :=
  l.filterMap (is S T)

/-- Embedding of `TokenFilter::ranges` (src/lib.rs):
`self.filter_map(|id| S::to::<T>(id).map(|_| id))` — note the yielded element
is the original `id`. -/
def ranges (S T : Type) [Token T] [Position S T] (l : List Nat) : List Nat :=
  l.filterMap fun id => (to' S T id).map fun _ => id

end Lib

/-- The comparison-guarded `is` of src/lib.rs agrees pointwise with the
`checked_sub`-based `try_as` of src/space.rs, for any kind whose conversion
rejects values at or above `COUNT`. -/
lemma lib_is_eq_try_as (S T : Type) [Token T] [TryFromU32 T] [Position S T]
    (hfail : ∀ v, COUNT T ≤ v → (TryFromU32.tryFrom (T := T) v).toOption = none)
    (id : Nat) :
    Lib.is S T id = TokenSpace.try_as S T id := by
  by_cases hle : OFFSET S T ≤ id
  · rw [try_as_of_le S T id hle]
    by_cases hlt : id < OFFSET S T + COUNT T
    · rw [Lib.is, if_pos ⟨hle, hlt⟩]
    · rw [Lib.is, if_neg (fun hc => hlt hc.2), hfail (id - OFFSET S T) (by omega)]
  · rw [Lib.is, if_neg (fun hc => hle hc.1), TokenSpace.try_as, checkedSub, if_neg hle]
    rfl

/-- The comparison-guarded `to` of src/lib.rs matches elements exactly when
`try_as` of src/space.rs succeeds, for any kind whose conversion accepts
values below `COUNT` and rejects the rest. -/
lemma lib_to_guard (S T : Type) [Token T] [TryFromU32 T] [Position S T]
    (hfail : ∀ v, COUNT T ≤ v → (TryFromU32.tryFrom (T := T) v).toOption = none)
    (hsucc : ∀ v, v < COUNT T → ((TryFromU32.tryFrom (T := T) v).toOption).isSome = true)
    (id : Nat) :
    ((Lib.to' S T id).map fun _ => id) =
      if (TokenSpace.try_as S T id).isSome = true then some id else none := by
  by_cases hle : OFFSET S T ≤ id
  · by_cases hlt : id < OFFSET S T + COUNT T
    · have h1 : (TokenSpace.try_as S T id).isSome = true := by
        rw [try_as_of_le S T id hle]; exact hsucc _ (by omega)
      rw [Lib.to', if_pos ⟨hle, hlt⟩, if_pos h1]
      rfl
    · have h1 : TokenSpace.try_as S T id = none := by
        rw [try_as_of_le S T id hle]; exact hfail _ (by omega)
      rw [Lib.to', if_neg (fun hc => hlt hc.2), if_neg (by rw [h1]; simp)]
      rfl
  · have h1 : TokenSpace.try_as S T id = none := by
      rw [TokenSpace.try_as, checkedSub, if_neg hle]; rfl
    rw [Lib.to', if_neg (fun hc => hle hc.1), if_neg (by rw [h1]; simp)]
    rfl

lemma filterMap_if_eq_filter (p : Nat → Bool) (l : List Nat) :
    (l.filterMap fun id => if p id = true then some id else none) = l.filter p := by
  induction l with
  | nil => rfl
  | cons x xs ih =>
    by_cases hx : p x = true
    · simp [List.filterMap_cons, List.filter_cons, hx, ih]
    · simp [List.filterMap_cons, List.filter_cons, hx, ih]

lemma ginger_toOption_fail : ∀ v, COUNT GingerToken ≤ v →
    (TryFromU32.tryFrom (T := GingerToken) v).toOption = none :=
  fun v h => GingerToken.ginger_tryFrom_none v h

lemma mao_toOption_fail : ∀ v, COUNT MaoToken ≤ v →
    (TryFromU32.tryFrom (T := MaoToken) v).toOption = none :=
  fun v h => MaoToken.mao_tryFrom_none v h

lemma single_toOption_fail : ∀ v, COUNT SingleToken ≤ v →
    (TryFromU32.tryFrom (T := SingleToken) v).toOption = none :=
  fun v h => SingleToken.single_tryFrom_none v h

lemma text_toOption_fail : ∀ v, COUNT TextTokens ≤ v →
    (TryFromU32.tryFrom (T := TextTokens) v).toOption = none :=
  fun v h => TextTokens.text_tryFrom_none v h

lemma text_toOption_succ : ∀ v, v < COUNT TextTokens →
    ((TryFromU32.tryFrom (T := TextTokens) v).toOption).isSome = true := by
  intro v h
  show ((TextTokens.tryFrom v).toOption).isSome = true
  rw [TextTokens.tryFrom, if_pos h]
  rfl

/-- C9 counterexample: `ranges` keeps the original global id, not the local
`id - OFFSET`: on input `[10]` (first `TextTokens` position, `OFFSET = 10`)
it yields `[10]`, whereas the claim predicts the local value `[0]`. -/
theorem c9_filter_by_kind_counterexample :
    Lib.ranges Lib.GingerSpace TextTokens [10] = [10] ∧
    OFFSET Lib.GingerSpace TextTokens = 10 ∧
    Lib.ranges Lib.GingerSpace TextTokens [10] ≠ [0] := by
  refine ⟨by decide, rfl, by decide⟩

/-- C9 (amended): for each kind of the layout and any finite input, the
filters yield, in input order, exactly the elements that decode as the
requested kind, dropping the rest silently; `specials` yields the typed
(named-kind) values, while `ranges` yields the original raw ids of the
matching elements, not the local `id - OFFSET`. -/
theorem c9_filter_by_kind_amended :
    (∀ l : List Nat, Lib.specials Lib.GingerSpace GingerToken l =
      l.filterMap (TokenSpace.try_as Lib.GingerSpace GingerToken)) ∧
    (∀ l : List Nat, Lib.specials Lib.GingerSpace MaoToken l =
      l.filterMap (TokenSpace.try_as Lib.GingerSpace MaoToken)) ∧
    (∀ l : List Nat, Lib.specials Lib.GingerSpace SingleToken l =
      l.filterMap (TokenSpace.try_as Lib.GingerSpace SingleToken)) ∧
    (∀ l : List Nat, Lib.ranges Lib.GingerSpace TextTokens l =
      l.filter fun id => (TokenSpace.try_as Lib.GingerSpace TextTokens id).isSome) := by
  refine ⟨fun l => ?_, fun l => ?_, fun l => ?_, fun l => ?_⟩
  · rw [Lib.specials,
      funext (lib_is_eq_try_as Lib.GingerSpace GingerToken ginger_toOption_fail)]
  · rw [Lib.specials,
      funext (lib_is_eq_try_as Lib.GingerSpace MaoToken mao_toOption_fail)]
  · rw [Lib.specials,
      funext (lib_is_eq_try_as Lib.GingerSpace SingleToken single_toOption_fail)]
  · rw [Lib.ranges,
      funext (lib_to_guard Lib.GingerSpace TextTokens text_toOption_fail text_toOption_succ)]
    exact filterMap_if_eq_filter (fun id =>
      (TokenSpace.try_as Lib.GingerSpace TextTokens id).isSome) l
